import Mathlib

/-!
Verification of the schedule-generation core of the AI-Study-Planner backend
(`backend/services/study_plan_service.js`, class `ScheduleService`).

Embedding conventions:
* JavaScript numbers are modelled exactly: integers as `Int`/`Nat`, and the
  time/duration arithmetic of `generateDaySessions` (which divides hours) over
  `ℚ`.  `Math.floor` on a quotient is `Int.fdiv`; the JS `x % n` used on
  non-negative clock values is `Int.emod`.
* A `Date` holding `2000-01-01 <time>` is modelled by its minute count.  The
  exact generation clock (kept by the source in a `Date` object and advanced
  with `setMinutes`) is the `clock : Option ℚ` field of a session; the
  time-of-day rendered by `toLocaleTimeString` (and re-parsed by
  `generateDayBreaks`) is the `time : Option Int` field, `none` standing for
  the `"Invalid Date"` rendering of an invalid `Date`.
* The external text-generation collaborator is an oracle parameter: each call
  site receives the outcome of its call (`AIOutcome`, or a topic list for
  `generateTopicsForSubject`, whose own fallback makes it total).  `JSON.parse`
  on the response text is likewise an oracle `String → JsonParseResult`.
* Fallible functions return `Except String`, the error string mirroring the
  message thrown by the source.
-/

/-- JS `parseInt` (radix 10) on a string: skip leading whitespace, optional
sign, then leading decimal digits; `none` models `NaN`.  (The hexadecimal
`0x` prefix of `parseInt` is not modelled; no caller relies on it.) -/
def jsParseIntChars (cs : List Char) : Option Int :=
  let rest := cs.dropWhile fun c => c = ' ' ∨ c = '\t' ∨ c = '\n' ∨ c = '\r'
  let signAndDigits : Int × List Char :=
    match rest with
    | '-' :: r => (-1, r)
    | '+' :: r => (1, r)
    | _ => (1, rest)
  let ds := signAndDigits.2.takeWhile Char.isDigit
  if ds.isEmpty then none
  else some (signAndDigits.1 * (ds.foldl (fun a c => a * 10 + (c.toNat - 48)) 0 : Nat))

/-- JS `parseInt` on a possibly-absent string (`parseInt(undefined)` is `NaN`). -/
def jsParseInt (s : Option String) : Option Int :=
  match s with
  | none => none
  | some str => jsParseIntChars str.data

/-- JS `String.prototype.split` with a single-character separator. -/
def splitOnChar (sep : Char) : List Char → List (List Char)
  | [] => [[]]
  | c :: rest =>
    let r := splitOnChar sep rest
    if c = sep then [] :: r
    else
      match r with
      | [] => [[c]]
      | h :: t => (c :: h) :: t

/-- JS `String.prototype.trim` (on the whitespace characters we model). -/
def jsTrim (s : String) : String :=
  let ws := fun c => c = ' ' ∨ c = '\t' ∨ c = '\n' ∨ c = '\r'
  String.mk (((s.data.dropWhile ws).reverse.dropWhile ws).reverse)

/-- The `Int → ℚ` cast used when the session loop starts its clock from a
parsed time-of-day minute value. -/
def todToRat (t : Int) : ℚ := (t : ℚ)

/-- Rendering of a time-of-day (minutes, taken mod 24 h) by
`toLocaleTimeString('en-US', \x7b hour: 'numeric', minute: '2-digit', hour12: true \x7d)`. -/
def formatTime12 (tod : Int) : String :=
  let m : Nat := (tod % 1440).toNat
  let hh24 : Nat := m / 60
  let mm : Nat := m % 60
  let h12 : Nat := if hh24 % 12 = 0 then 12 else hh24 % 12
  let ampm : String := if hh24 < 12 then "AM" else "PM"
  let mmStr : String := if mm < 10 then "0" ++ toString mm else toString mm
  toString h12 ++ ":" ++ mmStr ++ " " ++ ampm

/-! ## Data model -/

structure Prefs where
  startTime : Option String
deriving Repr, DecidableEq, Inhabited

/-- A study-plan record as handed to the schedule service (the Prisma
`StudyPlan` row, plus the optional `preferences` object the service reads). -/
structure RawStudyPlan where
  id : Int
  userId : String
  exam : String
  studyDuration : String
  dailyHours : Int
  subjects : List String
  optionals : List String
  studyStyle : List String
  numberOfAttempts : Int
  preferences : Option Prefs
deriving Repr, DecidableEq, Inhabited

/-- The result of `normalizeStudyPlan` (preferences defaulted to `{}`). -/
structure NormStudyPlan where
  id : Int
  userId : String
  exam : String
  dailyHours : Int
  subjects : List String
  preferences : Prefs
deriving Repr, DecidableEq, Inhabited

/-- A topic as consumed by `generateDaySessions` / `calculateStudyPace`:
whatever JSON the collaborator returned (or the fallback topic).  `difficulty`
and `duration` are absent-able; `difficulty 0` is falsy in JS, which
`t.difficulty || 3` maps to `3`, so we keep the raw value. -/
structure Topic where
  name : String
  type : String
  difficulty : Option ℚ
  duration : Option String
deriving Repr, DecidableEq, Inhabited

structure Session where
  /-- Time-of-day minutes encoded by the session's formatted `time` string;
  `none` renders `"Invalid Date"`. -/
  time : Option Int
  /-- Exact generation clock (minutes) held by the source's `Date` object. -/
  clock : Option ℚ
  subject : String
  topics : List Topic
  type : String
  /-- The computed `sessionDuration` (the source renders it as `"${d}min"`). -/
  durationMin : ℚ
  recommendedPace : String
deriving Repr, DecidableEq, Inhabited

structure Break where
  /-- Time-of-day minutes encoded by the break's formatted `time` string. -/
  time : Option Int
  duration : String
  type : String
deriving Repr, DecidableEq, Inhabited

structure DayContent where
  focus : String
  /-- The source wraps this list as `\x7b set: sessions \x7d` for persistence. -/
  sessions : List Session
  breaks : List Break
  dailyTargets : List String
deriving Repr, DecidableEq, Inhabited

structure DayMetadata where
  currentDay : Int
  totalDays : Int
  progress : ℚ
  dailyHours : Int
  status : String
deriving Repr, DecidableEq, Inhabited

/-- The schedule row handed to `prisma.schedule.create` by
`generateDaySchedule` (persistence itself is the external gateway). -/
structure ScheduleRecord where
  type : String
  studyPlanId : Int
  userId : String
  dayNumber : Int
  focus : String
  sessions : List Session
  breaks : List Break
  dailyTargets : List String
  metadata : DayMetadata
deriving Repr, DecidableEq, Inhabited

/-! ## Collaborator oracles -/

/-- Outcome of one `this.ai.models.generateContent` call inside
`generateDailyTargets`: the call threw, the response had no `.response`
member, or `.response.text()` returned the given string (`""` is falsy). -/
inductive AIOutcome where
  | callFailure
  | noResponse
  | respText (t : String)
deriving Repr, DecidableEq, Inhabited

/-- Outcome of `JSON.parse` on a response text: a JSON array (of target
strings), some non-array JSON value, or a parse error. -/
inductive JsonParseResult where
  | arr (items : List String)
  | nonArray
  | parseFail
deriving Repr, DecidableEq, Inhabited

/-- Outcome of the week-content call in `generateWeekContent`: either parsed
`\x7b focus, weeklyTargets \x7d` content or any failure (transport or parse). -/
inductive WeekAIOutcome where
  | failure
  | content (focus : String) (weeklyTargets : List String)
deriving Repr, DecidableEq, Inhabited

/-! ## ScheduleService functions -/

/-- `normalizeStudyPlan` (the `null` input case is handled by the caller's
`!studyPlan` guard, so the `return null` branch is unreachable here).
`parseInt(studyPlan.dailyHours) || 6` maps the falsy `0` to the default `6`;
other integers (including negative ones) pass through. -/
def normalizeStudyPlan (studyPlan : RawStudyPlan) : NormStudyPlan :=
  { id := studyPlan.id
    userId := studyPlan.userId
    exam := studyPlan.exam
    dailyHours := if studyPlan.dailyHours = 0 then 6 else studyPlan.dailyHours
    subjects := studyPlan.subjects
    preferences := studyPlan.preferences.getD { startTime := none } }

/-- The time-of-day (minutes) that `calculateDayStartTime` computes, `none`
when the constructed `Date` is invalid.  `setHours(h)` then `setMinutes(m)`
amounts to `(h*60 + m)` modulo 24 h (floor modulo, as in `HourFromTime`). -/
def dayStartTod (preferredTime : Option String) : Option Int :=
  let s : String :=
    match preferredTime with
    | none => "09:00"
    | some p => if p = "" then "09:00" else p
  let parts := splitOnChar ':' s.data
  match jsParseIntChars (parts.getD 0 []), jsParseIntChars (parts.getD 1 []) with
  | some h, some m => some ((h * 60 + m) % 1440)
  | _, _ => none

/-- `calculateDayStartTime`.  On a missing/empty argument the default
`"09:00"` is formatted; when either `parseInt` yields `NaN` the `Date` is
invalid and `toLocaleTimeString` renders `"Invalid Date"` (no exception is
thrown on string input, so the catch-fallback `"9:00 AM"` is not reached). -/
def calculateDayStartTime (preferredTime : Option String) : String :=
  match dayStartTod preferredTime with
  | some tod => formatTime12 tod
  | none => "Invalid Date"

/-- The per-topic term of the session-duration sum:
`parseInt(topic.duration) || averageSessionLength`. -/
def topicDurationTerm (avg : ℚ) (t : Topic) : ℚ :=
  match jsParseInt t.duration with
  | some v => if v = 0 then avg else (v : ℚ)
  | none => avg

/-- `topics.reduce((total, topic) => total + (parseInt(topic.duration) || averageSessionLength), 0)`. -/
def sessionDurationOf (topics : List Topic) (avg : ℚ) : ℚ :=
  topics.foldl (fun total t => total + topicDurationTerm avg t) 0

/-- The `t.difficulty || 3` term of `calculateStudyPace`. -/
def difficultyTerm (t : Topic) : ℚ :=
  match t.difficulty with
  | some d => if d = 0 then 3 else d
  | none => 3

/-- `avgDifficulty` of `calculateStudyPace`; for the empty list the JS value
is `0 / 0 = NaN`, modelled as `none`. -/
def avgDifficulty (topics : List Topic) : Option ℚ :=
  if topics.length = 0 then none
  else some ((topics.foldl (fun s t => s + difficultyTerm t) 0) / (topics.length : ℚ))

/-- JS `x >= y` where `x` may be `NaN`: any comparison with `NaN` is false. -/
def jsGe (x : Option ℚ) (y : ℚ) : Bool :=
  match x with
  | none => false
  | some v => decide (y ≤ v)

/-- `calculateStudyPace`. -/
def calculateStudyPace (topics : List Topic) : String :=
  if jsGe (avgDifficulty topics) 4 then "Take extra time for complex concepts"
  else if jsGe (avgDifficulty topics) 3 then "Maintain steady pace"
  else "Can proceed quickly if concepts are clear"

/-- The session-building loop of `generateDaySessions`: argument `i` is the
loop index, `k` the remaining iterations, `clock` the current `Date`
(`none` = invalid).  `topicsFor i` is the (total, fallback-protected) result
of `generateTopicsForSubject` on iteration `i`. -/
def sessionsLoop (subjects : List String) (avg : ℚ) (topicsFor : Nat → List Topic) :
    Nat → Nat → Option ℚ → List Session
  | _, 0, _ => []
  | i, k + 1, clock =>
    let subject := subjects.getD (i % subjects.length) ""
    let topics := topicsFor i
    let dur := sessionDurationOf topics avg
    { time := clock.map fun c => (Rat.floor c) % 1440
      clock := clock
      subject := subject
      topics := topics
      type := "STUDY"
      durationMin := dur
      recommendedPace := calculateStudyPace topics } ::
      sessionsLoop subjects avg topicsFor (i + 1) k (clock.map fun c => c + dur)

/-- `generateDaySessions(subjects, startTime, sessionsCount, studyPlan, dayNumber)`.
`startTod` is the minute value carried by the `startTime` string (`none` for
`"Invalid Date"`); `dailyHours` is `studyPlan.dailyHours`; `dayNumber` is
absorbed into the `topicsFor` oracle.  A negative `sessionsCount` runs the
loop zero times, hence `Int.toNat`.  (When `sessionsCount = 0` the JS average
is `Infinity`/`NaN` but is never used; `ℚ` division by zero is likewise
irrelevant here.) -/
def generateDaySessions (subjects : List String) (startTod : Option Int)
    (sessionsCount : Int) (dailyHours : Int) (topicsFor : Nat → List Topic) :
    Except String (List Session) :=
  if subjects.isEmpty then
    .error "Failed to generate sessions: Invalid subjects array"
  else
    let averageSessionLength : ℚ := ((dailyHours : ℚ) / (sessionsCount : ℚ)) * 60
    .ok (sessionsLoop subjects averageSessionLength topicsFor 0 sessionsCount.toNat
      (startTod.map todToRat))

/-- `generateDayBreaks`.  The `forEach` body fires for `index <
sessions.length - 1`; the lunch test is `index === Math.floor(sessions.length
/ 2) - 1` (an `Int` comparison: for length ≤ 1 the right side is `-1` and
never matches).  The break time re-parses the session's rendered time string
and adds two hours. -/
def generateDayBreaks (sessions : List Session) : List Break :=
  (List.range (sessions.length - 1)).map fun index =>
    let s := sessions.getD index default
    let breakTod := s.time.map fun t => (t + 120) % 1440
    if (index : Int) = ((sessions.length / 2 : Nat) : Int) - 1 then
      { time := breakTod, duration := "45min", type := "LUNCH" }
    else
      { time := breakTod, duration := "15min", type := "SHORT" }

/-- The inline fallback target `` `Study ${studyPlan.subjects[0]} concepts` ``
(an empty subject list renders the JS `undefined`). -/
def inlineFallbackTarget (subjects : List String) : String :=
  "Study " ++ subjects.getD 0 "undefined" ++ " concepts"

/-- The catch fallback target `` `Study ${studyPlan.subjects[0] || 'core'} concepts` ``. -/
def catchFallbackTarget (subjects : List String) : String :=
  "Study " ++ (if (subjects.getD 0 "") = "" then "core" else subjects.getD 0 "") ++ " concepts"

/-- `generateDailyTargets`.  `ai = none` models an uninitialized `this.ai`
(the guard before the `try` block, which throws); every failure inside the
`try` is caught and produces a fallback.  `jsonParse` is the `JSON.parse`
oracle on the response text. -/
def generateDailyTargets (ai : Option AIOutcome) (jsonParse : String → JsonParseResult)
    (subjects : List String) : Except String (List String) :=
  match ai with
  | none => .error "AI service not initialized"
  | some AIOutcome.callFailure => .ok [catchFallbackTarget subjects]
  | some AIOutcome.noResponse => .ok [catchFallbackTarget subjects]
  | some (AIOutcome.respText t) =>
    if t = "" then .ok [catchFallbackTarget subjects]
    else
      match jsonParse t with
      | JsonParseResult.arr items => .ok items
      | JsonParseResult.nonArray => .ok [inlineFallbackTarget subjects]
      | JsonParseResult.parseFail =>
        let lines := (((splitOnChar '\n' t.data).map fun l => jsTrim (String.mk l)).filter
          fun line => line ≠ "").take 5
        .ok (if lines.length = 0 then [inlineFallbackTarget subjects] else lines)

/-- `generateDayContent`.  `dayNumber = 0` is the only falsy `Int`; the
formatted start-time string produced by `calculateDayStartTime` is re-parsed
by `generateDaySessions`' `new Date(...)`, which recovers `dayStartTod` of the
same argument.  Errors of the inner steps are re-thrown with the outer
message prefix. -/
def generateDayContent (studyPlan : Option RawStudyPlan) (dayNumber : Int)
    (topicsFor : Nat → List Topic) (targetsOutcome : AIOutcome)
    (jsonParse : String → JsonParseResult) : Except String DayContent :=
  match studyPlan with
  | none => .error "error: Failed to generate content - Missing required parameters"
  | some plan =>
    if dayNumber = 0 then
      .error "error: Failed to generate content - Missing required parameters"
    else
      let normalizedPlan := normalizeStudyPlan plan
      let startTimeArg : String :=
        match normalizedPlan.preferences.startTime with
        | none => "09:00"
        | some s => if s = "" then "09:00" else s
      let startTod := dayStartTod (some startTimeArg)
      let sessionsPerDay : Int := Int.fdiv normalizedPlan.dailyHours 2
      match generateDaySessions normalizedPlan.subjects startTod sessionsPerDay
          normalizedPlan.dailyHours topicsFor with
      | .error e => .error ("error: Failed to generate content - " ++ e)
      | .ok sessions =>
        match generateDailyTargets (some targetsOutcome) jsonParse normalizedPlan.subjects with
        | .error e => .error ("error: Failed to generate content - " ++ e)
        | .ok dailyTargets =>
          .ok { focus := "Day " ++ toString dayNumber ++ " Study: " ++
                  normalizedPlan.subjects.getD 0 "undefined"
                sessions := sessions
                breaks := generateDayBreaks sessions
                dailyTargets := dailyTargets }

/-- `generateDayMetadata` (truthiness guards: `0` is the falsy `Int`). -/
def generateDayMetadata (dayNumber totalDays : Int) (studyPlan : Option RawStudyPlan) :
    Except String DayMetadata :=
  match studyPlan with
  | none => .error "Missing required parameters for metadata generation"
  | some plan =>
    if dayNumber = 0 ∨ totalDays = 0 then
      .error "Missing required parameters for metadata generation"
    else
      .ok { currentDay := dayNumber
            totalDays := totalDays
            progress := ((dayNumber : ℚ) / (totalDays : ℚ)) * 100
            dailyHours := plan.dailyHours
            status := "PENDING" }

/-- `validateScheduleParams` — defined by the service but never invoked by
`generateDaySchedule` or any other caller in the repository. -/
def validateScheduleParams (dayNumber totalDays : Int) : Except String Unit :=
  if dayNumber < 1 then .error "Invalid day number"
  else if totalDays < dayNumber then .error "Invalid total days"
  else .ok ()

/-- `generateDaySchedule`: builds content and metadata and hands the record to
the persistence gateway (`prisma.schedule.create`, external).  Note it does
not call `validateScheduleParams`. -/
def generateDaySchedule (studyPlan : Option RawStudyPlan) (dayNumber totalDays : Int)
    (topicsFor : Nat → List Topic) (targetsOutcome : AIOutcome)
    (jsonParse : String → JsonParseResult) : Except String ScheduleRecord :=
  match studyPlan with
  | none => .error "Failed to generate schedule: Study plan is required"
  | some plan =>
    match generateDayContent (some plan) dayNumber topicsFor targetsOutcome jsonParse with
    | .error e => .error ("Failed to generate schedule: " ++ e)
    | .ok content =>
      match generateDayMetadata dayNumber totalDays (some plan) with
      | .error e => .error ("Failed to generate schedule: " ++ e)
      | .ok metadata =>
        .ok { type := "DAILY"
              studyPlanId := plan.id
              userId := plan.userId
              dayNumber := dayNumber
              focus := content.focus
              sessions := content.sessions
              breaks := content.breaks
              dailyTargets := content.dailyTargets
              metadata := metadata }

/-- `determineWeekType`. -/
def determineWeekType (weekNumber totalWeeks : Int) : String :=
  if weekNumber = 1 then "FOUNDATION"
  else if weekNumber = totalWeeks then "FINAL_REVISION"
  else if weekNumber % 4 = 0 then "REVISION"
  else if weekNumber % 2 = 0 then "PRACTICE"
  else "CORE_CONCEPTS"

structure WeekMetadata where
  currentWeek : Int
  totalWeeks : Int
  weekProgress : ℚ
  weeklyHours : Int
  /-- Days added to "today" by `calculateWeekStartDate`. -/
  startOffsetDays : Int
  /-- Days added to "today" by `calculateWeekEndDate`. -/
  endOffsetDays : Int
  status : String
  revision : Bool
  weekType : String
deriving Repr, DecidableEq, Inhabited

/-- `generateWeekMetadata` (the two date fields are modelled as day offsets
from the wall clock the source reads). -/
def generateWeekMetadata (weekNumber totalWeeks : Int) (studyPlan : RawStudyPlan) :
    WeekMetadata :=
  { currentWeek := weekNumber
    totalWeeks := totalWeeks
    weekProgress := ((weekNumber : ℚ) / (totalWeeks : ℚ)) * 100
    weeklyHours := studyPlan.dailyHours * 7
    startOffsetDays := (weekNumber - 1) * 7
    endOffsetDays := (weekNumber - 1) * 7 + 6
    status := "PENDING"
    revision := weekNumber % 4 = 0
    weekType := determineWeekType weekNumber totalWeeks }

/-- `validateStudyPlan` (truthiness: id `0` and userId `""` are falsy). -/
def validateStudyPlan (studyPlan : Option RawStudyPlan) : Except String Unit :=
  match studyPlan with
  | none => .error "Invalid study plan: missing required fields"
  | some p =>
    if p.id = 0 ∨ p.userId = "" then .error "Invalid study plan: missing required fields"
    else if p.subjects.isEmpty then .error "Invalid study plan: subjects are required"
    else .ok ()

structure WeekContentResult where
  focus : String
  weeklyTargets : List String
deriving Repr, DecidableEq, Inhabited

/-- `generateWeekContent`: schema-constrained call with a deterministic
fallback on any failure. -/
def generateWeekContent (studyPlan : RawStudyPlan) (weekNumber : Int)
    (outcome : WeekAIOutcome) : WeekContentResult :=
  match outcome with
  | WeekAIOutcome.content f ts => { focus := f, weeklyTargets := ts }
  | WeekAIOutcome.failure =>
    { focus := "Week " ++ toString weekNumber ++ " Core Studies"
      weeklyTargets := ["Master " ++ studyPlan.subjects.getD 0 "undefined"] }

/-- The weekly schedule row built by `generateWeekSchedule` (the per-weekday
session fields read members absent from the response schema and are omitted;
no claim concerns them). -/
structure WeekScheduleRecord where
  type : String
  studyPlanId : Int
  userId : String
  weekNumber : Int
  focus : String
  weeklyTargets : List String
  metadata : WeekMetadata
deriving Repr, DecidableEq, Inhabited

/-- `generateWeekSchedule` (`composeWeek`): validation, content with
fallback, deterministic metadata, record handed to the gateway. -/
def generateWeekSchedule (studyPlan : Option RawStudyPlan) (weekNumber totalWeeks : Int)
    (outcome : WeekAIOutcome) : Except String WeekScheduleRecord :=
  match validateStudyPlan studyPlan, studyPlan with
  | .error e, _ => .error ("Failed to generate weekly schedule: " ++ e)
  | .ok _, none => .error "Failed to generate weekly schedule: Invalid study plan: missing required fields"
  | .ok _, some plan =>
    if weekNumber = 0 ∨ totalWeeks = 0 ∨ totalWeeks < weekNumber then
      .error "Failed to generate weekly schedule: Invalid week parameters"
    else
      let weekContent := generateWeekContent plan weekNumber outcome
      .ok { type := "WEEKLY"
            studyPlanId := plan.id
            userId := plan.userId
            weekNumber := weekNumber
            focus := weekContent.focus
            weeklyTargets := weekContent.weeklyTargets
            metadata := generateWeekMetadata weekNumber totalWeeks plan }

/-! ## Demo inputs used by closed theorems -/

/-- A representative well-formed plan (mirrors the repository's test data). -/
def demoPlanA : RawStudyPlan :=
  { id := 1, userId := "u1", exam := "GATE CSE", studyDuration := "3 months",
    dailyHours := 6, subjects := ["Math", "Science"], optionals := [],
    studyStyle := ["Practice"], numberOfAttempts := 1, preferences := none }

/-- `demoPlanA` with the normalized `dailyHours` equal to 1 (so
`sessionsPerDay = 0`). -/
def planH1 : RawStudyPlan := { demoPlanA with dailyHours := 1, subjects := ["Math"] }

/-- `demoPlanA` with `dailyHours = 0` (falsy). -/
def planH0 : RawStudyPlan := { demoPlanA with dailyHours := 0, subjects := ["Math"] }

/-- `demoPlanA` with negative `dailyHours`. -/
def planHneg : RawStudyPlan := { demoPlanA with dailyHours := -4, subjects := ["Math"] }

/-- A plan violating the StudyPlan invariant in both ways at once. -/
def planE : RawStudyPlan := { demoPlanA with dailyHours := 0, subjects := [] }

/-- A second demo plan, used where a claim needs an input distinct from
`demoPlanA`. -/
def demoPlanW : RawStudyPlan := { demoPlanA with id := 2, subjects := ["Physics"] }

/-! ## Helper lemmas -/

theorem getD_range_map {α : Type} [Inhabited α] (f : Nat → α) (m j : Nat) (h : j < m) :
    ((List.range m).map f).getD j default = f j := by
  simp [List.getD_eq_getElem?_getD, List.getElem?_map, List.getElem?_range h]

/-- The cumulative duration of sessions `i, i+1, ..., i+j-1`. -/
def sessionDurSum (topicsFor : Nat → List Topic) (avg : ℚ) (i j : Nat) : ℚ :=
  ((List.range j).map fun l => sessionDurationOf (topicsFor (i + l)) avg).sum

theorem sessionDurSum_zero (topicsFor : Nat → List Topic) (avg : ℚ) (i : Nat) :
    sessionDurSum topicsFor avg i 0 = 0 := rfl

theorem sessionDurSum_succ_left (topicsFor : Nat → List Topic) (avg : ℚ) (i j : Nat) :
    sessionDurSum topicsFor avg i (j + 1) =
      sessionDurationOf (topicsFor i) avg + sessionDurSum topicsFor avg (i + 1) j := by
  unfold sessionDurSum
  rw [List.range_succ_eq_map, List.map_cons, List.sum_cons, List.map_map]
  have h : ((fun l => sessionDurationOf (topicsFor (i + l)) avg) ∘ Nat.succ) =
      fun l => sessionDurationOf (topicsFor (i + 1 + l)) avg := by
    funext l
    have harith : i + Nat.succ l = i + 1 + l := by omega
    simp [Function.comp, harith]
  rw [h, Nat.add_zero]

theorem sessionDurSum_succ_right (topicsFor : Nat → List Topic) (avg : ℚ) (i j : Nat) :
    sessionDurSum topicsFor avg i (j + 1) =
      sessionDurSum topicsFor avg i j + sessionDurationOf (topicsFor (i + j)) avg := by
  unfold sessionDurSum
  rw [List.range_succ]
  simp

/-- Closed form of the `j`-th session produced by the generation loop. -/
theorem sessionsLoop_getD_spec (s : List String) (avg : ℚ) (topicsFor : Nat → List Topic) :
    ∀ (k j i : Nat) (clock : Option ℚ), j < k →
      (sessionsLoop s avg topicsFor i k clock).getD j default =
        { time := (clock.map fun c => c + sessionDurSum topicsFor avg i j).map
            fun c => Rat.floor c % 1440
          clock := clock.map fun c => c + sessionDurSum topicsFor avg i j
          subject := s.getD ((i + j) % s.length) ""
          topics := topicsFor (i + j)
          type := "STUDY"
          durationMin := sessionDurationOf (topicsFor (i + j)) avg
          recommendedPace := calculateStudyPace (topicsFor (i + j)) } := by
  intro k
  induction k with
  | zero => intro j i clock h; omega
  | succ n ih =>
    intro j i clock h
    cases j with
    | zero =>
      simp [sessionsLoop, sessionDurSum_zero]
    | succ j =>
      have step : (sessionsLoop s avg topicsFor i (n + 1) clock).getD (j + 1) default =
          (sessionsLoop s avg topicsFor (i + 1) n
            (clock.map fun c => c + sessionDurationOf (topicsFor i) avg)).getD j default := rfl
      rw [step, ih j (i + 1) _ (by omega)]
      have harith : i + 1 + j = i + (j + 1) := by omega
      rw [harith]
      have hmap : (clock.map fun c => c + sessionDurationOf (topicsFor i) avg).map
            (fun c => c + sessionDurSum topicsFor avg (i + 1) j) =
          clock.map fun c => c + sessionDurSum topicsFor avg i (j + 1) := by
        rw [Option.map_map]
        congr 1
        funext c
        simp only [Function.comp_apply]
        rw [sessionDurSum_succ_left]
        ring
      rw [hmap]

theorem sessionsLoop_length (s : List String) (avg : ℚ) (topicsFor : Nat → List Topic) :
    ∀ (k i : Nat) (clock : Option ℚ), (sessionsLoop s avg topicsFor i k clock).length = k := by
  intro k
  induction k with
  | zero => intro i clock; rfl
  | succ n ih => intro i clock; simpa [sessionsLoop] using ih (i + 1) _

theorem generateDayBreaks_length (sessions : List Session) :
    (generateDayBreaks sessions).length = sessions.length - 1 := by
  simp [generateDayBreaks]

theorem isEmpty_false_of_ne_nil {α : Type} {l : List α} (h : l ≠ []) : l.isEmpty = false := by
  cases l with
  | nil => exact absurd rfl h
  | cons a t => rfl

theorem generateDaySessions_eq_ok (subjects : List String) (startTod : Option Int)
    (sessionsCount dailyHours : Int) (topicsFor : Nat → List Topic) (hs : subjects ≠ []) :
    generateDaySessions subjects startTod sessionsCount dailyHours topicsFor =
      .ok (sessionsLoop subjects (((dailyHours : ℚ) / (sessionsCount : ℚ)) * 60) topicsFor 0
        sessionsCount.toNat (startTod.map todToRat)) := by
  unfold generateDaySessions
  rw [isEmpty_false_of_ne_nil hs]
  rfl

theorem fdiv_two_toNat (dh : Int) (h : 0 ≤ dh) : (Int.fdiv dh 2).toNat = dh.toNat / 2 := by
  obtain ⟨n, rfl⟩ := Int.eq_ofNat_of_zero_le h
  cases n with
  | zero => rfl
  | succ k => rfl

/-- `generateDailyTargets` with an initialized collaborator always succeeds,
and the only empty result comes from a response text parsing to the empty
JSON array. -/
theorem generateDailyTargets_some_ok (outcome : AIOutcome)
    (jsonParse : String → JsonParseResult) (subjects : List String) :
    ∃ l, generateDailyTargets (some outcome) jsonParse subjects = .ok l ∧
      (l = [] → ∃ t, outcome = AIOutcome.respText t ∧ jsonParse t = JsonParseResult.arr []) := by
  cases outcome with
  | callFailure => exact ⟨_, rfl, fun h => absurd h (List.cons_ne_nil _ _)⟩
  | noResponse => exact ⟨_, rfl, fun h => absurd h (List.cons_ne_nil _ _)⟩
  | respText t =>
    by_cases ht : t = ""
    · subst ht
      exact ⟨_, rfl, fun h => absurd h (List.cons_ne_nil _ _)⟩
    · have key : generateDailyTargets (some (AIOutcome.respText t)) jsonParse subjects =
          match jsonParse t with
          | JsonParseResult.arr items => Except.ok items
          | JsonParseResult.nonArray => Except.ok [inlineFallbackTarget subjects]
          | JsonParseResult.parseFail =>
            Except.ok
              (if ((((splitOnChar '\n' t.data).map fun l => jsTrim (String.mk l)).filter
                    fun line => line ≠ "").take 5).length = 0
               then [inlineFallbackTarget subjects]
               else (((splitOnChar '\n' t.data).map fun l => jsTrim (String.mk l)).filter
                    fun line => line ≠ "").take 5) := by
        show (if t = "" then _ else _) = _
        rw [if_neg ht]
      cases hp : jsonParse t with
      | arr items =>
        exact ⟨items, by rw [key, hp], fun h => ⟨t, rfl, by rw [hp, h]⟩⟩
      | nonArray =>
        exact ⟨[inlineFallbackTarget subjects], by rw [key, hp],
          fun h => absurd h (List.cons_ne_nil _ _)⟩
      | parseFail =>
        refine ⟨_, by rw [key, hp], fun h => ?_⟩
        split at h
        · exact absurd h (List.cons_ne_nil _ _)
        · rename_i hcond
          exact absurd (by rw [h]; rfl) hcond

theorem topicDurationTerm_nonneg (avg : ℚ) (t : Topic) (havg : 0 ≤ avg)
    (ht : ∀ v, jsParseInt t.duration = some v → 0 ≤ v) :
    0 ≤ topicDurationTerm avg t := by
  unfold topicDurationTerm
  cases hv : jsParseInt t.duration with
  | none => exact havg
  | some v =>
    by_cases hz : v = 0
    · simp [hz, havg]
    · simp only [hz, if_false]
      exact_mod_cast ht v hv

theorem foldl_dur_nonneg (avg : ℚ) :
    ∀ (topics : List Topic) (init : ℚ), 0 ≤ init →
      (∀ t ∈ topics, 0 ≤ topicDurationTerm avg t) →
      0 ≤ topics.foldl (fun total t => total + topicDurationTerm avg t) init := by
  intro topics
  induction topics with
  | nil => intro init h0 _; simpa using h0
  | cons a l ih =>
    intro init h0 hterm
    simp only [List.foldl_cons]
    exact ih _ (add_nonneg h0 (hterm a (List.mem_cons_self a l)))
      fun t htl => hterm t (List.mem_cons_of_mem a htl)

theorem sessionDurationOf_nonneg (topics : List Topic) (avg : ℚ) (havg : 0 ≤ avg)
    (ht : ∀ t ∈ topics, ∀ v, jsParseInt t.duration = some v → 0 ≤ v) :
    0 ≤ sessionDurationOf topics avg :=
  foldl_dur_nonneg avg topics 0 le_rfl fun t htm =>
    topicDurationTerm_nonneg avg t havg (ht t htm)

theorem countP_range_eq_one (t m : Nat) (h : t < m) :
    List.countP (fun j => decide (j = t)) (List.range m) = 1 := by
  induction m with
  | zero => omega
  | succ n ih =>
    rw [List.range_succ, List.countP_append]
    by_cases htn : t = n
    · subst htn
      have h0 : List.countP (fun j => decide (j = t)) (List.range t) = 0 := by
        rw [List.countP_eq_zero]
        intro a ha
        simp only [List.mem_range] at ha
        simp
        omega
      simp [h0]
    · have htn' : t < n := by omega
      rw [ih htn']
      have hone : List.countP (fun j => decide (j = t)) [n] = 0 := by
        simp [List.countP_cons, htn]
        omega
      omega

theorem normalizeStudyPlan_subjects (plan : RawStudyPlan) :
    (normalizeStudyPlan plan).subjects = plan.subjects := rfl

/-! ## Claim C1 — `generateDailyTargets` never throws / never empty -/

/-- Claim C1, counterexample: with a null collaborator (`service.ai = null`,
as one of the repository's own tests sets up) `generateDailyTargets` throws
`"AI service not initialized"` instead of falling back; and a response whose
text parses to the empty JSON array is returned as an empty target list. -/
theorem generateDailyTargets_null_ai_counterexample :
    (generateDailyTargets none (fun _ => JsonParseResult.parseFail) ["Math"]).isOk = false ∧
    generateDailyTargets none (fun _ => JsonParseResult.parseFail) ["Math"] =
      .error "AI service not initialized" ∧
    generateDailyTargets (some (AIOutcome.respText "[]"))
      (fun t => if t = "[]" then JsonParseResult.arr [] else JsonParseResult.parseFail)
      ["Math"] = .ok [] :=
  ⟨rfl, rfl, rfl⟩

/-- Claim C1 (amended): with a non-null collaborator `generateDailyTargets`
never throws, and every failure path yields the non-empty fallback — except
that a response text parsing to the empty JSON array is returned verbatim as
an empty list; with a null collaborator it throws
`"AI service not initialized"`. -/
theorem generateDailyTargets_amended_spec :
    ∀ (jsonParse : String → JsonParseResult) (subjects : List String),
      generateDailyTargets none jsonParse subjects = .error "AI service not initialized" ∧
      ∀ outcome, ∃ l, generateDailyTargets (some outcome) jsonParse subjects = .ok l ∧
        (l = [] → ∃ t, outcome = AIOutcome.respText t ∧ jsonParse t = JsonParseResult.arr []) :=
  fun jsonParse subjects =>
    ⟨rfl, fun outcome => generateDailyTargets_some_ok outcome jsonParse subjects⟩

/-- Witness for the amended C1 theorem at a concrete collaborator outcome. -/
theorem generateDailyTargets_amended_spec_witness :
    generateDailyTargets none (fun _ => JsonParseResult.nonArray) ["Physics"] =
      .error "AI service not initialized" ∧
    ∃ l, generateDailyTargets (some AIOutcome.noResponse) (fun _ => JsonParseResult.nonArray)
        ["Physics"] = .ok l ∧
      (l = [] → ∃ t, AIOutcome.noResponse = AIOutcome.respText t ∧
        (fun _ => JsonParseResult.nonArray) t = JsonParseResult.arr []) := by
  have h := generateDailyTargets_amended_spec (fun _ => JsonParseResult.nonArray) ["Physics"]
  exact ⟨h.1, h.2 AIOutcome.noResponse⟩

/-! ## Claim C7 — `calculateDayStartTime` -/

/-- Claim C7, counterexample: the malformed preferred time `"abc"` is not
caught — `parseInt` yields `NaN`, the `Date` becomes invalid, and the
function returns the string `"Invalid Date"`, not the documented literal
fallback `"9:00 AM"`. -/
theorem calculateDayStartTime_malformed_counterexample :
    calculateDayStartTime (some "abc") = "Invalid Date" ∧
    calculateDayStartTime (some "abc") ≠ "9:00 AM" := by
  constructor
  · rfl
  · decide

/-- Claim C7 (amended): `calculateDayStartTime` never throws on an absent or
string input; an absent/empty preferred time yields `"9:00 AM"` (the default
`"09:00"` formatted, not the catch fallback); a malformed string (one whose
hour or minute component has no leading integer) yields the string
`"Invalid Date"`; a parseable `"HH:MM"` input is returned in 12-hour format. -/
theorem calculateDayStartTime_amended :
    calculateDayStartTime none = "9:00 AM" ∧
    calculateDayStartTime (some "") = "9:00 AM" ∧
    (∀ s : String, dayStartTod (some s) = none →
      calculateDayStartTime (some s) = "Invalid Date") ∧
    (∀ (s : String) (t : Int), dayStartTod (some s) = some t →
      calculateDayStartTime (some s) = formatTime12 t) ∧
    calculateDayStartTime (some "14:30") = "2:30 PM" := by
  refine ⟨by decide, by decide, ?_, ?_, by decide⟩
  · intro s h
    unfold calculateDayStartTime
    rw [h]
  · intro s t h
    unfold calculateDayStartTime
    rw [h]

/-- Witness for the amended C7 theorem at concrete inputs. -/
theorem calculateDayStartTime_amended_witness :
    calculateDayStartTime (some "xx:10") = "Invalid Date" ∧
    calculateDayStartTime (some "08:15") = formatTime12 495 := by
  constructor
  · exact calculateDayStartTime_amended.2.2.1 "xx:10" (by decide)
  · exact calculateDayStartTime_amended.2.2.2.1 "08:15" 495 (by decide)

/-! ## Claim C10 — `calculateStudyPace` on the empty topic list -/

/-- Claim C10: `calculateStudyPace` is total; on the empty topic list the
average difficulty is `0 / 0` (`NaN`, modelled `none`), both `≥ 4` and `≥ 3`
comparisons are false, and the fast-pace branch is returned. -/
theorem calculateStudyPace_empty_topics :
    avgDifficulty [] = none ∧
    jsGe (avgDifficulty []) 4 = false ∧
    jsGe (avgDifficulty []) 3 = false ∧
    calculateStudyPace [] = "Can proceed quickly if concepts are clear" :=
  ⟨rfl, rfl, rfl, rfl⟩

/-! ## Claim C8 — week archetypes -/

/-- The week-1-of-1 record used by the C8 counterexample. -/
def weekRec11 : WeekScheduleRecord :=
  (generateWeekSchedule (some demoPlanA) 1 1 WeekAIOutcome.failure).toOption.getD default

/-- Claim C8, counterexample: for `totalWeeks = 1`, `composeWeek(plan, N, N)`
does not yield `FINAL_REVISION` — the first-matching rule `weekIndex = 1 →
FOUNDATION` wins, so `composeWeek(plan, 1, 1)` yields `FOUNDATION`. -/
theorem composeWeek_final_revision_counterexample :
    (generateWeekSchedule (some demoPlanA) 1 1 WeekAIOutcome.failure).isOk = true ∧
    weekRec11.metadata.weekType = "FOUNDATION" ∧
    determineWeekType 1 1 = "FOUNDATION" ∧
    determineWeekType 1 1 ≠ "FINAL_REVISION" := by
  refine ⟨rfl, rfl, rfl, ?_⟩
  decide

/-- Claim C8 (amended): the archetype is decided by the first matching rule in
order (1 → FOUNDATION, = totalWeeks → FINAL_REVISION, mult-of-4 → REVISION,
even → PRACTICE, else CORE_CONCEPTS); `composeWeek(plan, 1, N)` yields
FOUNDATION for every `N ≥ 1`; `composeWeek(plan, N, N)` yields FINAL_REVISION
for every `N ≥ 2` (for `N = 1` the first rule wins); and
`composeWeek(plan, 4, 10)` yields REVISION. -/
theorem determineWeekType_amended :
    (∀ w N : Int,
      (w = 1 → determineWeekType w N = "FOUNDATION") ∧
      (w ≠ 1 → w = N → determineWeekType w N = "FINAL_REVISION") ∧
      (w ≠ 1 → w ≠ N → w % 4 = 0 → determineWeekType w N = "REVISION") ∧
      (w ≠ 1 → w ≠ N → w % 4 ≠ 0 → w % 2 = 0 → determineWeekType w N = "PRACTICE") ∧
      (w ≠ 1 → w ≠ N → w % 4 ≠ 0 → w % 2 ≠ 0 →
        determineWeekType w N = "CORE_CONCEPTS")) ∧
    (∀ (plan : RawStudyPlan) (N : Int) (outcome : WeekAIOutcome),
      validateStudyPlan (some plan) = .ok () → 1 ≤ N →
      ∃ r, generateWeekSchedule (some plan) 1 N outcome = .ok r ∧
        r.metadata.weekType = "FOUNDATION") ∧
    (∀ (plan : RawStudyPlan) (N : Int) (outcome : WeekAIOutcome),
      validateStudyPlan (some plan) = .ok () → 2 ≤ N →
      ∃ r, generateWeekSchedule (some plan) N N outcome = .ok r ∧
        r.metadata.weekType = "FINAL_REVISION") ∧
    (∀ (plan : RawStudyPlan) (outcome : WeekAIOutcome),
      validateStudyPlan (some plan) = .ok () →
      ∃ r, generateWeekSchedule (some plan) 4 10 outcome = .ok r ∧
        r.metadata.weekType = "REVISION") := by
  refine ⟨?_, ?_, ?_, ?_⟩
  · intro w N
    refine ⟨?_, ?_, ?_, ?_, ?_⟩
    · intro h1; simp [determineWeekType, h1]
    · intro h1 hN; subst hN; simp [determineWeekType, h1]
    · intro h1 hN h4; simp [determineWeekType, h1, hN, h4]
    · intro h1 hN h4 h2; simp [determineWeekType, h1, hN, h4, h2]
    · intro h1 hN h4 h2; simp [determineWeekType, h1, hN, h4, h2]
  · intro plan N outcome hval hN
    simp only [generateWeekSchedule, hval]
    rw [if_neg (by omega)]
    exact ⟨_, rfl, by simp [generateWeekMetadata, determineWeekType]⟩
  · intro plan N outcome hval hN
    simp only [generateWeekSchedule, hval]
    rw [if_neg (by omega)]
    refine ⟨_, rfl, ?_⟩
    show determineWeekType N N = "FINAL_REVISION"
    unfold determineWeekType
    rw [if_neg (by omega), if_pos rfl]
  · intro plan outcome hval
    simp only [generateWeekSchedule, hval]
    rw [if_neg (by decide)]
    refine ⟨_, rfl, ?_⟩
    show determineWeekType 4 10 = "REVISION"
    decide

/-- Witness for the amended C8 theorem at concrete weeks and a concrete plan. -/
theorem determineWeekType_amended_witness :
    determineWeekType 6 10 = "PRACTICE" ∧
    (∃ r, generateWeekSchedule (some demoPlanW) 1 3 WeekAIOutcome.failure = .ok r ∧
      r.metadata.weekType = "FOUNDATION") ∧
    (∃ r, generateWeekSchedule (some demoPlanW) 3 3 WeekAIOutcome.failure = .ok r ∧
      r.metadata.weekType = "FINAL_REVISION") ∧
    (∃ r, generateWeekSchedule (some demoPlanW) 4 10 WeekAIOutcome.failure = .ok r ∧
      r.metadata.weekType = "REVISION") := by
  refine ⟨?_, ?_, ?_, ?_⟩
  · exact (determineWeekType_amended.1 6 10).2.2.2.1 (by decide) (by decide) (by decide)
      (by decide)
  · exact determineWeekType_amended.2.1 demoPlanW 3 WeekAIOutcome.failure rfl (by decide)
  · exact determineWeekType_amended.2.2.1 demoPlanW 3 WeekAIOutcome.failure rfl (by decide)
  · exact determineWeekType_amended.2.2.2 demoPlanW WeekAIOutcome.failure rfl

/-! ## Claim C9 — day metadata invariant -/

/-- The day-5-of-3 record used by the C9 counterexample. -/
def dayRec53 : ScheduleRecord :=
  (generateDaySchedule (some demoPlanA) 5 3 (fun _ => []) AIOutcome.callFailure
    (fun _ => JsonParseResult.parseFail)).toOption.getD default

/-- Claim C9, counterexample: `generateDaySchedule` happily produces (and
hands to the persistence gateway) a record with `currentDay = 5 >
totalDays = 3` — `validateScheduleParams`, which would reject it, is never
called. -/
theorem generateDaySchedule_currentDay_counterexample :
    (generateDaySchedule (some demoPlanA) 5 3 (fun _ => []) AIOutcome.callFailure
      (fun _ => JsonParseResult.parseFail)).isOk = true ∧
    dayRec53.metadata.currentDay = 5 ∧
    dayRec53.metadata.totalDays = 3 ∧
    dayRec53.metadata.totalDays < dayRec53.metadata.currentDay ∧
    (validateScheduleParams 5 3).isOk = false := by
  refine ⟨rfl, rfl, rfl, by decide, rfl⟩

/-- Claim C9 (amended): every record `generateDaySchedule` produces does
satisfy `progress = currentDay / totalDays * 100` (with `currentDay` the
requested day and `totalDays` as passed), but `currentDay ≤ totalDays` is not
enforced anywhere on this path. -/
theorem generateDaySchedule_metadata_amended
    (plan : RawStudyPlan) (d N : Int) (topicsFor : Nat → List Topic)
    (outcome : AIOutcome) (jsonParse : String → JsonParseResult) (r : ScheduleRecord)
    (h : generateDaySchedule (some plan) d N topicsFor outcome jsonParse = .ok r) :
    r.metadata.currentDay = d ∧ r.metadata.totalDays = N ∧
    r.metadata.progress = ((d : ℚ) / (N : ℚ)) * 100 ∧
    r.metadata.progress =
      ((r.metadata.currentDay : ℚ) / (r.metadata.totalDays : ℚ)) * 100 ∧
    r.metadata.dailyHours = plan.dailyHours ∧
    r.metadata.status = "PENDING" := by
  cases hc : generateDayContent (some plan) d topicsFor outcome jsonParse with
  | error e =>
    simp only [generateDaySchedule, hc] at h
    exact Except.noConfusion h
  | ok content =>
    cases hm : generateDayMetadata d N (some plan) with
    | error e =>
      simp only [generateDaySchedule, hc, hm] at h
      exact Except.noConfusion h
    | ok meta =>
      simp only [generateDaySchedule, hc, hm] at h
      injection h with h2
      subst h2
      simp only [generateDayMetadata] at hm
      by_cases h0 : d = 0 ∨ N = 0
      · rw [if_pos h0] at hm
        exact Except.noConfusion hm
      · rw [if_neg h0] at hm
        injection hm with hm2
        subst hm2
        exact ⟨rfl, rfl, rfl, rfl, rfl, rfl⟩

/-- The day-2-of-10 record used by the C9 witness. -/
def dayRec210 : ScheduleRecord :=
  (generateDaySchedule (some demoPlanA) 2 10 (fun _ => []) AIOutcome.callFailure
    (fun _ => JsonParseResult.parseFail)).toOption.getD default

/-- Witness for the amended C9 theorem on a concrete successful run. -/
theorem generateDaySchedule_metadata_amended_witness :
    dayRec210.metadata.currentDay = 2 ∧ dayRec210.metadata.totalDays = 10 ∧
    dayRec210.metadata.progress = (((2 : Int) : ℚ) / ((10 : Int) : ℚ)) * 100 ∧
    dayRec210.metadata.progress =
      ((dayRec210.metadata.currentDay : ℚ) / (dayRec210.metadata.totalDays : ℚ)) * 100 ∧
    dayRec210.metadata.dailyHours = demoPlanA.dailyHours ∧
    dayRec210.metadata.status = "PENDING" :=
  generateDaySchedule_metadata_amended demoPlanA 2 10 (fun _ => []) AIOutcome.callFailure
    (fun _ => JsonParseResult.parseFail) dayRec210 rfl

/-! ## Claim C5 — `sessionsPerDay = 0` -/

/-- Claim C5, counterexample: for `dailyHours = 1` (so `sessionsPerDay =
floor(1/2) = 0`) `generateDayContent` does not fail — it returns a day with an
empty session list, empty breaks, and the fallback targets. -/
theorem generateDayContent_zero_sessions_counterexample :
    generateDayContent (some planH1) 1 (fun _ => []) AIOutcome.callFailure
        (fun _ => JsonParseResult.parseFail) =
      .ok { focus := "Day 1 Study: Math", sessions := [], breaks := [],
            dailyTargets := ["Study Math concepts"] } := rfl

/-- Claim C5 (amended): whenever the normalized `dailyHours` makes
`sessionsPerDay = floor(dailyHours/2) ≤ 0`, `generateDayContent` succeeds —
no `InvalidInput`-style error is raised — and returns a day whose session and
break lists are both empty. -/
theorem generateDayContent_zero_sessions_amended
    (plan : RawStudyPlan) (dayNumber : Int) (topicsFor : Nat → List Topic)
    (outcome : AIOutcome) (jsonParse : String → JsonParseResult)
    (hd : dayNumber ≠ 0) (hs : plan.subjects ≠ [])
    (hcnt : Int.fdiv (normalizeStudyPlan plan).dailyHours 2 ≤ 0) :
    ∃ c, generateDayContent (some plan) dayNumber topicsFor outcome jsonParse = .ok c ∧
      c.sessions = [] ∧ c.breaks = [] := by
  obtain ⟨targets, htargets, -⟩ :=
    generateDailyTargets_some_ok outcome jsonParse (normalizeStudyPlan plan).subjects
  have hzero : (Int.fdiv (normalizeStudyPlan plan).dailyHours 2).toNat = 0 :=
    Int.toNat_eq_zero.mpr hcnt
  have hs' : (normalizeStudyPlan plan).subjects ≠ [] := hs
  have key : generateDayContent (some plan) dayNumber topicsFor outcome jsonParse =
      .ok { focus := "Day " ++ toString dayNumber ++ " Study: " ++
              (normalizeStudyPlan plan).subjects.getD 0 "undefined"
            sessions := [], breaks := [], dailyTargets := targets } := by
    simp only [generateDayContent]
    rw [if_neg hd, generateDaySessions_eq_ok _ _ _ _ _ hs', hzero]
    simp only [sessionsLoop]
    rw [htargets]
    rfl
  exact ⟨_, key, rfl, rfl⟩

/-- Witness for the amended C5 theorem at negative daily hours. -/
theorem generateDayContent_zero_sessions_amended_witness :
    (2 : Int) ≠ 0 ∧ planHneg.subjects ≠ [] ∧
    Int.fdiv (normalizeStudyPlan planHneg).dailyHours 2 ≤ 0 ∧
    ∃ c, generateDayContent (some planHneg) 2 (fun _ => []) AIOutcome.noResponse
        (fun _ => JsonParseResult.parseFail) = .ok c ∧
      c.sessions = [] ∧ c.breaks = [] := by
  refine ⟨by decide, by decide, by decide, ?_⟩
  exact generateDayContent_zero_sessions_amended planHneg 2 (fun _ => [])
    AIOutcome.noResponse (fun _ => JsonParseResult.parseFail) (by decide) (by decide)
    (by decide)

/-! ## Claim C6 — invariant-violating plans -/

/-- Claim C6, counterexample: a plan with `dailyHours = 0` is not rejected —
`normalizeStudyPlan` silently replaces the hours by the default `6` and the
day composition succeeds (with three sessions, not an error). -/
theorem normalizeStudyPlan_default_hours_counterexample :
    (normalizeStudyPlan planH0).dailyHours = 6 ∧
    (generateDayContent (some planH0) 1 (fun _ => []) AIOutcome.callFailure
      (fun _ => JsonParseResult.parseFail)).isOk = true := by
  exact ⟨rfl, rfl⟩

/-- Claim C6 (amended): an empty subject list does make the day composition
fail fast (with the `Invalid subjects array` error), but a violated
`dailyHours > 0` invariant is not rejected: `dailyHours = 0` is silently
replaced by the default allocation `6`. -/
theorem generateDayContent_invalid_plan_amended
    (plan : RawStudyPlan) (dayNumber : Int) (topicsFor : Nat → List Topic)
    (outcome : AIOutcome) (jsonParse : String → JsonParseResult)
    (hd : dayNumber ≠ 0) :
    (plan.subjects = [] →
      generateDayContent (some plan) dayNumber topicsFor outcome jsonParse =
        .error "error: Failed to generate content - Failed to generate sessions: Invalid subjects array") ∧
    (plan.dailyHours = 0 → (normalizeStudyPlan plan).dailyHours = 6) := by
  constructor
  · intro hsub
    have hsub' : (normalizeStudyPlan plan).subjects = [] := hsub
    simp only [generateDayContent]
    rw [if_neg hd]
    have herr : generateDaySessions (normalizeStudyPlan plan).subjects
        (dayStartTod (some (match (normalizeStudyPlan plan).preferences.startTime with
          | none => "09:00"
          | some s => if s = "" then "09:00" else s)))
        (Int.fdiv (normalizeStudyPlan plan).dailyHours 2)
        (normalizeStudyPlan plan).dailyHours topicsFor =
        .error "Failed to generate sessions: Invalid subjects array" := by
      unfold generateDaySessions
      rw [hsub']
      rfl
    rw [herr]
    rfl
  · intro h0
    simp [normalizeStudyPlan, h0]

/-- Witness for the amended C6 theorem on a doubly-invalid plan. -/
theorem generateDayContent_invalid_plan_amended_witness :
    (3 : Int) ≠ 0 ∧
    (planE.subjects = [] →
      generateDayContent (some planE) 3 (fun _ => []) AIOutcome.callFailure
        (fun _ => JsonParseResult.parseFail) =
        .error "error: Failed to generate content - Failed to generate sessions: Invalid subjects array") ∧
    (planE.dailyHours = 0 → (normalizeStudyPlan planE).dailyHours = 6) := by
  refine ⟨by decide, ?_, ?_⟩
  · exact (generateDayContent_invalid_plan_amended planE 3 (fun _ => [])
      AIOutcome.callFailure (fun _ => JsonParseResult.parseFail) (by decide)).1
  · exact (generateDayContent_invalid_plan_amended planE 3 (fun _ => [])
      AIOutcome.callFailure (fun _ => JsonParseResult.parseFail) (by decide)).2

/-! ## Claim C2 — session count, round-robin subjects, break count -/

/-- The `preferredTime` argument `generateDayContent` passes to
`calculateDayStartTime` (`normalizedPlan.preferences?.startTime || "09:00"`). -/
def dayStartArg (plan : RawStudyPlan) : String :=
  match (normalizeStudyPlan plan).preferences.startTime with
  | none => "09:00"
  | some s => if s = "" then "09:00" else s

/-- The session list `generateDayContent` obtains from `generateDaySessions`
(on the non-empty-subjects path). -/
def dayContentSessions (plan : RawStudyPlan) (topicsFor : Nat → List Topic) : List Session :=
  sessionsLoop (normalizeStudyPlan plan).subjects
    ((((normalizeStudyPlan plan).dailyHours : ℚ) /
      ((Int.fdiv (normalizeStudyPlan plan).dailyHours 2 : Int) : ℚ)) * 60)
    topicsFor 0 (Int.fdiv (normalizeStudyPlan plan).dailyHours 2).toNat
    ((dayStartTod (some (dayStartArg plan))).map todToRat)

theorem generateDayContent_ok_eq (plan : RawStudyPlan) (dayNumber : Int)
    (topicsFor : Nat → List Topic) (outcome : AIOutcome)
    (jsonParse : String → JsonParseResult) (targets : List String)
    (hd : dayNumber ≠ 0) (hs' : (normalizeStudyPlan plan).subjects ≠ [])
    (htargets : generateDailyTargets (some outcome) jsonParse
      (normalizeStudyPlan plan).subjects = .ok targets) :
    generateDayContent (some plan) dayNumber topicsFor outcome jsonParse =
      .ok { focus := "Day " ++ toString dayNumber ++ " Study: " ++
              (normalizeStudyPlan plan).subjects.getD 0 "undefined"
            sessions := dayContentSessions plan topicsFor
            breaks := generateDayBreaks (dayContentSessions plan topicsFor)
            dailyTargets := targets } := by
  simp only [generateDayContent]
  rw [if_neg hd, generateDaySessions_eq_ok _ _ _ _ _ hs', htargets]
  rfl

/-- Claim C2: for every plan with `dailyHours ≥ 2` and a non-empty subject
list (and a valid day index), `generateDayContent` succeeds with exactly
`floor(dailyHours/2)` sessions, session `i`'s subject equal to
`subjects[i mod subjects.length]`, and `n - 1` breaks for its `n` sessions. -/
theorem generateDayContent_session_count_subjects
    (plan : RawStudyPlan) (dayNumber : Int) (topicsFor : Nat → List Topic)
    (outcome : AIOutcome) (jsonParse : String → JsonParseResult)
    (hdh : 2 ≤ plan.dailyHours) (hs : plan.subjects ≠ []) (hd : dayNumber ≠ 0) :
    ∃ content, generateDayContent (some plan) dayNumber topicsFor outcome jsonParse =
        .ok content ∧
      content.sessions.length = plan.dailyHours.toNat / 2 ∧
      (∀ j, j < content.sessions.length →
        (content.sessions.getD j default).subject =
          plan.subjects.getD (j % plan.subjects.length) "") ∧
      content.breaks.length = content.sessions.length - 1 := by
  obtain ⟨targets, htargets, -⟩ :=
    generateDailyTargets_some_ok outcome jsonParse (normalizeStudyPlan plan).subjects
  have hs' : (normalizeStudyPlan plan).subjects ≠ [] := hs
  have hnd : (normalizeStudyPlan plan).dailyHours = plan.dailyHours := by
    show (if plan.dailyHours = 0 then 6 else plan.dailyHours) = plan.dailyHours
    rw [if_neg (by omega)]
  refine ⟨_, generateDayContent_ok_eq plan dayNumber topicsFor outcome jsonParse targets
    hd hs' htargets, ?_, ?_, ?_⟩
  · show (dayContentSessions plan topicsFor).length = plan.dailyHours.toNat / 2
    unfold dayContentSessions
    rw [sessionsLoop_length, hnd]
    exact fdiv_two_toNat _ (by omega)
  · intro j hj
    show ((dayContentSessions plan topicsFor).getD j default).subject =
      plan.subjects.getD (j % plan.subjects.length) ""
    unfold dayContentSessions at hj ⊢
    rw [sessionsLoop_length] at hj
    rw [sessionsLoop_getD_spec _ _ _ _ j 0 _ hj]
    simp [normalizeStudyPlan_subjects]
  · exact generateDayBreaks_length _

/-- Witness for the C2 theorem on a concrete plan with `dailyHours = 6` and
two subjects. -/
theorem generateDayContent_session_count_subjects_witness :
    2 ≤ demoPlanA.dailyHours ∧ demoPlanA.subjects ≠ [] ∧ ((1 : Int) ≠ 0) ∧
    ∃ content, generateDayContent (some demoPlanA) 1 (fun _ => []) AIOutcome.callFailure
        (fun _ => JsonParseResult.parseFail) = .ok content ∧
      content.sessions.length = demoPlanA.dailyHours.toNat / 2 ∧
      (∀ j, j < content.sessions.length →
        (content.sessions.getD j default).subject =
          demoPlanA.subjects.getD (j % demoPlanA.subjects.length) "") ∧
      content.breaks.length = content.sessions.length - 1 :=
  ⟨by decide, by decide, by decide,
    generateDayContent_session_count_subjects demoPlanA 1 (fun _ => []) AIOutcome.callFailure
      (fun _ => JsonParseResult.parseFail) (by decide) (by decide) (by decide)⟩

/-! ## Claim C3 — lunch-break placement and break timing -/

theorem generateDayBreaks_getD (sessions : List Session) (j : Nat)
    (h : j < sessions.length - 1) :
    (generateDayBreaks sessions).getD j default =
      if (j : Int) = ((sessions.length / 2 : Nat) : Int) - 1 then
        { time := ((sessions.getD j default).time).map fun t => (t + 120) % 1440,
          duration := "45min", type := "LUNCH" }
      else
        { time := ((sessions.getD j default).time).map fun t => (t + 120) % 1440,
          duration := "15min", type := "SHORT" } := by
  unfold generateDayBreaks
  rw [getD_range_map _ _ _ h]

theorem countP_map_range {α : Type} (f : Nat → α) (p : α → Bool) (m t : Nat) (ht : t < m)
    (hp : ∀ j, j < m → (p (f j) = true ↔ j = t)) :
    List.countP p ((List.range m).map f) = 1 := by
  rw [List.countP_map]
  have he : List.countP (p ∘ f) (List.range m) =
      List.countP (fun j => decide (j = t)) (List.range m) := by
    apply List.countP_congr
    intro a ha
    simp only [List.mem_range] at ha
    simp only [Function.comp_apply, decide_eq_true_eq]
    exact hp a ha
  rw [he]
  exact countP_range_eq_one t m ht

/-- Claim C3: for more than two sessions, the break after session
`floor(n/2) - 1` is the unique LUNCH break (45 min), every other
inter-session break is SHORT (15 min), and each break starts a fixed two
hours after its preceding session's (rendered) start time. -/
theorem generateDayBreaks_lunch_spec (sessions : List Session)
    (h : 2 < sessions.length) :
    ((generateDayBreaks sessions).getD (sessions.length / 2 - 1) default).type = "LUNCH" ∧
    ((generateDayBreaks sessions).getD (sessions.length / 2 - 1) default).duration =
      "45min" ∧
    (∀ j, j < sessions.length - 1 → j ≠ sessions.length / 2 - 1 →
      ((generateDayBreaks sessions).getD j default).type = "SHORT" ∧
      ((generateDayBreaks sessions).getD j default).duration = "15min") ∧
    (∀ j, j < sessions.length - 1 →
      ((generateDayBreaks sessions).getD j default).time =
        ((sessions.getD j default).time).map fun t => (t + 120) % 1440) ∧
    (generateDayBreaks sessions).countP (fun b => decide (b.type = "LUNCH")) = 1 := by
  have hlt : sessions.length / 2 - 1 < sessions.length - 1 := by omega
  refine ⟨?_, ?_, ?_, ?_, ?_⟩
  · rw [generateDayBreaks_getD _ _ hlt, if_pos (by omega)]
  · rw [generateDayBreaks_getD _ _ hlt, if_pos (by omega)]
  · intro j hj hne
    rw [generateDayBreaks_getD _ _ hj, if_neg (by omega)]
    exact ⟨rfl, rfl⟩
  · intro j hj
    rw [generateDayBreaks_getD _ _ hj]
    split <;> rfl
  · unfold generateDayBreaks
    apply countP_map_range _ _ _ (sessions.length / 2 - 1) hlt
    intro j hj
    simp only [decide_eq_true_eq]
    by_cases hc : (j : Int) = ((sessions.length / 2 : Nat) : Int) - 1
    · rw [if_pos hc]
      exact ⟨fun _ => by omega, fun _ => rfl⟩
    · rw [if_neg hc]
      refine ⟨fun habs =>
        absurd (show ("SHORT" : String) = "LUNCH" from habs) (by decide),
        fun hj' => absurd ?_ hc⟩
      omega

/-- A concrete three-session day used as the C3 witness input. -/
def demoSessions3 : List Session :=
  [{ time := some 540, clock := some 540, subject := "Math", topics := [], type := "STUDY",
     durationMin := 120, recommendedPace := "Maintain steady pace" },
   { time := some 660, clock := some 660, subject := "Science", topics := [], type := "STUDY",
     durationMin := 120, recommendedPace := "Maintain steady pace" },
   { time := some 780, clock := some 780, subject := "Math", topics := [], type := "STUDY",
     durationMin := 120, recommendedPace := "Maintain steady pace" }]

/-- Witness for the C3 theorem on a concrete three-session list (lunch at
break index `3/2 - 1 = 0`, SHORT elsewhere). -/
theorem generateDayBreaks_lunch_spec_witness :
    2 < demoSessions3.length ∧
    ((generateDayBreaks demoSessions3).getD
      (demoSessions3.length / 2 - 1) default).type = "LUNCH" ∧
    ((generateDayBreaks demoSessions3).getD 1 default).type = "SHORT" ∧
    ((generateDayBreaks demoSessions3).getD 1 default).time =
      ((demoSessions3.getD 1 default).time).map (fun t => (t + 120) % 1440) ∧
    (generateDayBreaks demoSessions3).countP (fun b => decide (b.type = "LUNCH")) = 1 := by
  have h := generateDayBreaks_lunch_spec demoSessions3 (by decide)
  exact ⟨by decide, h.1, (h.2.2.1 1 (by decide) (by decide)).1, h.2.2.2.1 1 (by decide),
    h.2.2.2.2⟩

/-! ## Claim C4 — sequential clock advance -/

/-- Claim C4: for every session list produced by `generateDaySessions` (from a
valid start time, with non-negative plan hours/session count and topic
durations that parse non-negative, as the Topic data model prescribes), the
generation clock of session `i+1` equals that of session `i` plus session
`i`'s realized duration; that duration is the topic-duration sum with the
average session length substituted for topics lacking a (truthy) parsed
duration; and consecutive clock values are non-decreasing. -/
theorem generateDaySessions_clock_recurrence
    (subjects : List String) (startT : Int) (sessionsCount dailyHours : Int)
    (topicsFor : Nat → List Topic) (sessions : List Session)
    (hok : generateDaySessions subjects (some startT) sessionsCount dailyHours topicsFor =
      .ok sessions)
    (hdh : 0 ≤ dailyHours) (hsc : 0 ≤ sessionsCount)
    (hdur : ∀ i t, t ∈ topicsFor i → ∀ v, jsParseInt t.duration = some v → 0 ≤ v) :
    ∀ j, j + 1 < sessions.length →
      ((sessions.getD (j + 1) default).clock =
        ((sessions.getD j default).clock).map
          fun c => c + (sessions.getD j default).durationMin) ∧
      (sessions.getD j default).durationMin =
        sessionDurationOf (topicsFor j) (((dailyHours : ℚ) / (sessionsCount : ℚ)) * 60) ∧
      ((sessions.getD j default).clock).getD 0 ≤
        ((sessions.getD (j + 1) default).clock).getD 0 := by
  have hs : subjects ≠ [] := by
    intro hnil
    rw [hnil] at hok
    simp [generateDaySessions] at hok
  rw [generateDaySessions_eq_ok _ _ _ _ _ hs] at hok
  injection hok with hok2
  subst hok2
  have havg0 : 0 ≤ ((dailyHours : ℚ) / (sessionsCount : ℚ)) * 60 := by
    apply mul_nonneg _ (by norm_num)
    exact div_nonneg (by exact_mod_cast hdh) (by exact_mod_cast hsc)
  have hdsum : ∀ m, 0 ≤ sessionDurationOf (topicsFor m)
      (((dailyHours : ℚ) / (sessionsCount : ℚ)) * 60) := fun m =>
    sessionDurationOf_nonneg _ _ havg0 (hdur m)
  intro j hj1
  rw [sessionsLoop_length] at hj1
  have hj : j < sessionsCount.toNat := by omega
  rw [sessionsLoop_getD_spec _ _ _ _ (j + 1) 0 _ hj1,
    sessionsLoop_getD_spec _ _ _ _ j 0 _ hj]
  simp only [Option.map_some', Nat.zero_add, Option.getD_some]
  refine ⟨?_, by trivial, ?_⟩
  · rw [sessionDurSum_succ_right]
    simp only [Nat.zero_add]
    rw [← add_assoc]
  · rw [sessionDurSum_succ_right]
    simp only [Nat.zero_add]
    linarith [hdsum j]

/-- The two-session day used as the C4 witness input. -/
def demoS4 : List Session :=
  (generateDaySessions ["Math"] (some 540) 2 4 (fun _ => [])).toOption.getD []

/-- Witness for the C4 theorem on a concrete two-session generation run. -/
theorem generateDaySessions_clock_recurrence_witness :
    generateDaySessions ["Math"] (some 540) 2 4 (fun _ => []) = .ok demoS4 ∧
    (0 : Int) ≤ 4 ∧ (0 : Int) ≤ 2 ∧ 0 + 1 < demoS4.length ∧
    (((demoS4.getD (0 + 1) default).clock =
        ((demoS4.getD 0 default).clock).map
          fun c => c + (demoS4.getD 0 default).durationMin) ∧
      (demoS4.getD 0 default).durationMin =
        sessionDurationOf ((fun _ => ([] : List Topic)) 0)
          ((((4 : Int) : ℚ) / ((2 : Int) : ℚ)) * 60) ∧
      ((demoS4.getD 0 default).clock).getD 0 ≤
        ((demoS4.getD (0 + 1) default).clock).getD 0) := by
  refine ⟨rfl, by decide, by decide, by decide, ?_⟩
  exact generateDaySessions_clock_recurrence ["Math"] 540 2 4 (fun _ => []) demoS4 rfl
    (by decide) (by decide) (fun i t htm => absurd htm (List.not_mem_nil t)) 0 (by decide)
